import Mathlib

/-!
Shallow embedding of the MQTT bridge in `backend/mqtt_service.py`.

The module-level Python globals (`active_client_id`, `mqtt_client`,
`mqtt_connected`, `CONNECTION_STATUS`) become the fields of `BridgeState`.
Effects of the external MQTT client library (exceptions raised by
construction / teardown / publish, and the immediate return code of
`client.publish`) are supplied by an explicit `Env` oracle.  Outbound
publish calls and connect attempts are recorded as explicit action lists so
that theorems can talk about what was (or was not) sent on the wire.
-/

/-- The `CONNECTION_STATUS` dict: a status string (`"disconnected"`,
`"connecting"`, `"connected"`, `"error"`) and an optional error message. -/
structure ConnStatus where
  status : String
  error : Option String
  deriving DecidableEq

/-- The module-level mutable globals of `mqtt_service.py`. -/
structure BridgeState where
  active_client_id : Option String
  mqtt_client : Option Unit
  mqtt_connected : Bool
  conn : ConnStatus
  deriving DecidableEq

/-- `MQTT_CONFIG`: immutable-after-load broker configuration. -/
structure MqttConfig where
  host : String
  port : Nat
  client_id : String
  base_topic : String
  deriving DecidableEq

/-- Filesystem oracle for `os.path.exists` / `os.access(..., os.R_OK)`. -/
structure FileSys where
  fsExists : String → Bool
  fsReadable : String → Bool

/-- Oracle for the external MQTT client library: which calls raise an
exception (and with what `str(e)`), and the immediate return code of
`client.publish`.  `initRaises = some (true, e)` means the exception was
raised before the assignment `mqtt_client = mqtt.Client(...)` completed
(so the old handle survives); `some (false, e)` means it was raised
afterwards (TLS setup / connect / loop start). -/
structure Env where
  initRaises : Option (Bool × String)
  cleanupRaises : Option String
  publishRc : Nat
  publishRaises : Option String

/-- One `client.publish(topic, body, qos)` call issued to the library. -/
structure PubAct where
  topic : String
  body : String
  qos : Nat
  deriving DecidableEq

/-- Network-level action of `init_mqtt_client`: the `client.connect` call. -/
inductive NetAct where
  | connectAttempt
  deriving DecidableEq

/-- An HTTP response of the Flask control surface: status code, the
`success` field and the `error` field of the JSON body. -/
structure HttpResp where
  code : Nat
  success : Bool
  error : Option String
  deriving DecidableEq

/- JSON values, mutually with lists of values and objects (ordered key
value pairs, like Python dicts which keep insertion order). -/
mutual
inductive Json where
  | null : Json
  | bool (b : Bool) : Json
  | num (n : Int) : Json
  | str (s : String) : Json
  | arr (xs : JsonList) : Json
  | obj (kvs : JsonObj) : Json
inductive JsonList where
  | nil : JsonList
  | cons (hd : Json) (tl : JsonList) : JsonList
inductive JsonObj where
  | nil : JsonObj
  | cons (k : String) (v : Json) (tl : JsonObj) : JsonObj
end

/-- Escaping of one character inside a JSON string literal (the cases
`json.dumps` produces for the payloads this service handles). -/
def jsonEscChar (c : Char) : String :=
  if c = '"' then "\\\""
  else if c = '\\' then "\\\\"
  else if c = '\n' then "\\n"
  else if c = '\t' then "\\t"
  else if c = '\r' then "\\r"
  else String.singleton c

def jsonEsc (s : String) : String :=
  s.data.foldr (fun c acc => jsonEscChar c ++ acc) ""

def jsonQuote (s : String) : String :=
  "\"" ++ jsonEsc s ++ "\""

/- `json.dumps` with Python's default separators: `", "` between items and
`": "` between a key and its value. -/
mutual
def dumps : Json → String
  | .null => "null"
  | .bool b => if b then "true" else "false"
  | .num n => toString n
  | .str s => jsonQuote s
  | .arr xs => "[" ++ dumpsList xs ++ "]"
  | .obj kvs => "\x7b" ++ dumpsObj kvs ++ "\x7d"
def dumpsList : JsonList → String
  | .nil => ""
  | .cons x .nil => dumps x
  | .cons x (.cons y t) => dumps x ++ ", " ++ dumpsList (JsonList.cons y t)
def dumpsObj : JsonObj → String
  | .nil => ""
  | .cons k v .nil => jsonQuote k ++ ": " ++ dumps v
  | .cons k v (.cons k2 v2 t) =>
      jsonQuote k ++ ": " ++ dumps v ++ ", " ++ dumpsObj (JsonObj.cons k2 v2 t)
end

/-- Python truthiness (`if not data:`) of a parsed JSON value: `None`,
`False`, `0`, `""`, `[]` and `\x7b\x7d` are all falsy. -/
def jsonTruthy : Json → Bool
  | .null => false
  | .bool b => b
  | .num n => n != 0
  | .str s => s != ""
  | .arr .nil => false
  | .arr (.cons _ _) => true
  | .obj .nil => false
  | .obj (.cons _ _ _) => true

/-- Python `str.replace`, over character lists: replace every
non-overlapping occurrence of `pat`, scanning left to right.  The fuel is
the length of the subject string; each step consumes at least one
character, so the fuel never runs out when initialised that way. -/
def pyReplaceFuel (pat rep : List Char) : Nat → List Char → List Char
  | _, [] => []
  | 0, s => s
  | n + 1, c :: cs =>
    if pat.isPrefixOf (c :: cs) then
      rep ++ pyReplaceFuel pat rep n (cs.drop (pat.length - 1))
    else
      c :: pyReplaceFuel pat rep n cs

/-- Python `str.replace` on strings. -/
def pyReplace (s pat rep : String) : String :=
  ⟨pyReplaceFuel pat.data rep.data s.data.length s.data⟩

/-- Python `str.split(pat)`, over character lists, with the same fuel and
recursion structure as `pyReplaceFuel`. -/
def pySplitFuel (pat : List Char) : Nat → List Char → List (List Char)
  | _, [] => [[]]
  | 0, s => [s]
  | n + 1, c :: cs =>
    if pat.isPrefixOf (c :: cs) then
      [] :: pySplitFuel pat n (cs.drop (pat.length - 1))
    else
      match pySplitFuel pat n cs with
      | [] => [[c]]
      | x :: xs => (c :: x) :: xs

/-- Python `str.split(pat)` on strings. -/
def pySplit (pat s : String) : List String :=
  (pySplitFuel pat.data s.data.length s.data).map (fun l => ⟨l⟩)

/-- Python `sep.join(parts)`, over character lists. -/
def joinWithL (sep : List Char) : List (List Char) → List Char
  | [] => []
  | [x] => x
  | x :: y :: t => x ++ sep ++ joinWithL sep (y :: t)

/-- Python `sep.join(parts)` on strings. -/
def pyJoin (sep : String) : List String → String
  | [] => ""
  | [x] => x
  | x :: y :: t => x ++ sep ++ pyJoin sep (y :: t)

/-- Number of non-overlapping occurrences of `pat` in `s`. -/
def countOcc (pat s : String) : Nat :=
  (pySplit pat s).length - 1

/-- `needle` occurs as a contiguous substring of `hay`. -/
def strContains (hay needle : String) : Prop :=
  needle.data <:+: hay.data

instance (hay needle : String) : Decidable (strContains hay needle) :=
  inferInstanceAs (Decidable (needle.data <:+: hay.data))

/-- `CERTIFICATES`: the three expected PEM files, in the dict's insertion
order (`client_key`, `client_cert`, `ca_cert`). -/
def CERTIFICATES (certDir : String) : List (String × String) :=
  [("client_key", certDir ++ "/client-key.pem"),
   ("client_cert", certDir ++ "/client-cert.pem"),
   ("ca_cert", certDir ++ "/ca-cert.pem")]

/-- The issue description for one certificate entry, or `none` when the
file exists and is readable.  Mirrors the loop body of
`check_certificates`. -/
def certIssue (fs : FileSys) (p : String × String) : Option String :=
  if fs.fsExists p.2 = false then some (p.1 ++ " at " ++ p.2)
  else if fs.fsReadable p.2 = false then
    some (p.1 ++ " at " ++ p.2 ++ " (not readable)")
  else none

/-- `check_certificates`: report the missing / unreadable certificates, in
dict order. -/
def check_certificates (fs : FileSys) (certDir : String) : List String :=
  (CERTIFICATES certDir).filterMap (certIssue fs)

/-- `get_publish_topic`: the base topic when no (non-empty) client id is
set, otherwise the base topic with `client_id` substituted via
`str.replace`. -/
def get_publish_topic (baseTopic : String) (active : Option String) : String :=
  match active with
  | none => baseTopic
  | some cid => if cid = "" then baseTopic else pyReplace baseTopic "client_id" cid

/-- Initial values of the globals: no client id, no handle, not connected,
status `"disconnected"` with no error. -/
def initState : BridgeState :=
  { active_client_id := none, mqtt_client := none, mqtt_connected := false,
    conn := { status := "disconnected", error := none } }

/-- `publish_message(payload)`: fail fast when there is no handle or the
connected flag is down; otherwise serialize the payload, resolve the topic
and issue one QoS-1 publish, reporting success exactly when the immediate
return code is `MQTT_ERR_SUCCESS` (0).  The function never assigns to any
global, so the state is returned unchanged in every branch. -/
def publish_message (cfg : MqttConfig) (env : Env) (payload : Json)
    (s : BridgeState) : (Bool × Option String) × BridgeState × List PubAct :=
  if s.mqtt_client = none ∨ s.mqtt_connected = false then
    ((false, some "MQTT client not connected"), s, [])
  else
    match env.publishRaises with
    | some e => ((false, some ("Error publishing message: " ++ e)), s, [])
    | none =>
      if env.publishRc = 0 then
        ((true, none), s,
          [⟨get_publish_topic cfg.base_topic s.active_client_id, dumps payload, 1⟩])
      else
        ((false, some ("Failed to publish message: " ++ toString env.publishRc)), s,
          [⟨get_publish_topic cfg.base_topic s.active_client_id, dumps payload, 1⟩])

/-- `on_connect(client, userdata, flags, rc)`: on `rc == 0` set the
connected flag, set status `connected` / clear the error, and relay one
`"Connected"` announcement through `publish_message` (its result is
discarded); otherwise clear the flag and set status `error` with a message
embedding `rc`. -/
def on_connect (cfg : MqttConfig) (env : Env) (rc : Nat) (s : BridgeState) :
    BridgeState × List PubAct :=
  if rc = 0 then
    (publish_message cfg env (Json.str "Connected")
      { s with mqtt_connected := true, conn := ⟨"connected", none⟩ }).2
  else
    ({ s with
        mqtt_connected := false,
        conn := ⟨"error",
          some ("Failed to connect to MQTT broker with result code " ++ toString rc)⟩ },
     [])

/-- `on_disconnect(client, userdata, rc)`: clear the connected flag and set
status `"disconnected"`; the error field is left untouched. -/
def on_disconnect (_rc : Nat) (s : BridgeState) : BridgeState :=
  { s with mqtt_connected := false, conn := ⟨"disconnected", s.conn.error⟩ }

/-- `init_mqtt_client()`: set status `connecting` / clear the error, gate on
the certificate check (hard stop, no client constructed, no network call),
then construct a fresh handle and initiate the connect; any exception is
caught and converted to the `error` status.  The transient
`connecting`/`none` assignment is overwritten in the two failure branches,
and survives in the success branch. -/
def init_mqtt_client (fs : FileSys) (certDir : String) (env : Env)
    (s : BridgeState) : Bool × BridgeState × List NetAct :=
  if check_certificates fs certDir = [] then
    match env.initRaises with
    | some be =>
        (false,
         { s with
            mqtt_client := if be.1 then s.mqtt_client else some (),
            mqtt_connected := false,
            conn := ⟨"error", some ("Failed to initialize MQTT client: " ++ be.2)⟩ },
         [])
    | none =>
        (true,
         { s with mqtt_client := some (), conn := ⟨"connecting", none⟩ },
         [NetAct.connectAttempt])
  else
    (false,
     { s with
        conn := ⟨"error",
          some ("Missing or unreadable certificates: " ++
            pyJoin ", " (check_certificates fs certDir))⟩ },
     [])

/-- `cleanup_mqtt_client()`: a no-op success when no handle is live;
otherwise stop the loop, disconnect, drop the handle and reset the status,
unless the teardown raises, in which case only the error message is
overwritten and failure is returned. -/
def cleanup_mqtt_client (env : Env) (s : BridgeState) : Bool × BridgeState :=
  if s.mqtt_client = none then (true, s)
  else
    match env.cleanupRaises with
    | some e =>
        (false, { s with conn := ⟨s.conn.status, some ("Error cleaning up MQTT client: " ++ e)⟩ })
    | none =>
        (true, { s with
                  mqtt_client := none, mqtt_connected := false,
                  conn := ⟨"disconnected", none⟩ })

/-- `set_active_client_id(client_id)`. -/
def set_active_client_id (cid : String) (s : BridgeState) : Bool × BridgeState :=
  (true, { s with active_client_id := some cid })

/-- The `POST /publish` route handler: a missing body or a falsy parsed
body (in particular the empty object) is rejected with 400 before the
relay is ever consulted. -/
def publish (cfg : MqttConfig) (env : Env) (body : Option Json)
    (s : BridgeState) : HttpResp × BridgeState × List PubAct :=
  match body with
  | none => (⟨400, false, some "Payload is required"⟩, s, [])
  | some d =>
    if jsonTruthy d = false then (⟨400, false, some "Payload is required"⟩, s, [])
    else
      (⟨200, (publish_message cfg env d s).1.1, (publish_message cfg env d s).1.2⟩,
       (publish_message cfg env d s).2.1, (publish_message cfg env d s).2.2)

/-- One `connect()`-or-`disconnect()` request, for iterated sequences. -/
inductive ConnDiscOp where
  | connectOp (fs : FileSys) (certDir : String) (env : Env)
  | disconnectOp (env : Env)

/-- Run a sequence of connect/disconnect requests. -/
def runConnDisc : List ConnDiscOp → BridgeState → BridgeState
  | [], s => s
  | op :: ops, s =>
    runConnDisc ops
      (match op with
       | .connectOp fs certDir env => (init_mqtt_client fs certDir env s).2.1
       | .disconnectOp env => (cleanup_mqtt_client env s).2)

/-- States reachable from the initial globals by HTTP-triggered operations
and library callbacks.  `ok` restricts which library environments a
`disconnect()` request may run under (instantiated with `fun _ => True`
for full reachability, and with `cleanupRaises = none` for the runs where
no teardown ever raises).  Callbacks fire only while a handle is live. -/
inductive Reach (cfg : MqttConfig) (ok : Env → Prop) : BridgeState → Prop where
  | init : Reach cfg ok initState
  | connect (fs : FileSys) (certDir : String) (env : Env) {s : BridgeState} :
      Reach cfg ok s → Reach cfg ok (init_mqtt_client fs certDir env s).2.1
  | disconnect (env : Env) {s : BridgeState} :
      ok env → Reach cfg ok s → Reach cfg ok (cleanup_mqtt_client env s).2
  | publishMsg (env : Env) (payload : Json) {s : BridgeState} :
      Reach cfg ok s → Reach cfg ok (publish_message cfg env payload s).2.1
  | setClient (cid : String) {s : BridgeState} :
      Reach cfg ok s → Reach cfg ok (set_active_client_id cid s).2
  | onConnect (env : Env) (rc : Nat) {s : BridgeState} :
      s.mqtt_client ≠ none → Reach cfg ok s → Reach cfg ok (on_connect cfg env rc s).1
  | onDisconnect (rc : Nat) {s : BridgeState} :
      s.mqtt_client ≠ none → Reach cfg ok s → Reach cfg ok (on_disconnect rc s)

/- Concrete configuration, environments and states used by the scenario
theorems and counterexamples. -/

def cfg0 : MqttConfig :=
  ⟨"broker.example", 8883, "glowcontrol-python-0", "/client_id/api"⟩

def env0 : Env := ⟨none, none, 0, none⟩

def envCleanupBoom : Env := ⟨none, some "boom", 0, none⟩

def fsGood : FileSys := ⟨fun _ => true, fun _ => true⟩

def fsNoCA : FileSys := ⟨fun p => p != "certs/ca-cert.pem", fun _ => true⟩

def payA : Json := Json.obj (JsonObj.cons "a" (Json.num 1) JsonObj.nil)

def sConnecting : BridgeState := (init_mqtt_client fsGood "certs" env0 initState).2.1

def sConnected : BridgeState := (on_connect cfg0 env0 0 sConnecting).1

def sReconnecting : BridgeState := (init_mqtt_client fsGood "certs" env0 sConnected).2.1

def sCertFail : BridgeState := (init_mqtt_client fsNoCA "certs" env0 initState).2.1

def sErrCode : BridgeState := (on_connect cfg0 env0 5 sConnecting).1

def sBadCleanup : BridgeState := (cleanup_mqtt_client envCleanupBoom sConnected).2

def sTenant : BridgeState := (set_active_client_id "tenant42" sConnected).2


/-! ### String machinery lemmas -/

theorem str_data_append (a b : String) : (a ++ b).data = a.data ++ b.data := rfl

theorem pySplitFuel_ne_nil (pat : List Char) (n : Nat) (s : List Char) :
    pySplitFuel pat n s ≠ [] := by
  cases n with
  | zero => cases s <;> simp [pySplitFuel]
  | succ m =>
    cases s with
    | nil => simp [pySplitFuel]
    | cons c cs =>
      by_cases hp : pat.isPrefixOf (c :: cs) = true
      · simp [pySplitFuel, hp]
      · simp only [pySplitFuel, hp]
        cases hq : pySplitFuel pat m cs <;> simp

theorem pyReplaceFuel_succ_pos (pat rep : List Char) (n : Nat) (c : Char)
    (cs : List Char) (h : pat.isPrefixOf (c :: cs) = true) :
    pyReplaceFuel pat rep (n + 1) (c :: cs) =
      rep ++ pyReplaceFuel pat rep n (cs.drop (pat.length - 1)) := by
  simp [pyReplaceFuel, h]

theorem pyReplaceFuel_succ_neg (pat rep : List Char) (n : Nat) (c : Char)
    (cs : List Char) (h : ¬ pat.isPrefixOf (c :: cs) = true) :
    pyReplaceFuel pat rep (n + 1) (c :: cs) = c :: pyReplaceFuel pat rep n cs := by
  simp [pyReplaceFuel, h]

theorem pySplitFuel_succ_pos (pat : List Char) (n : Nat) (c : Char)
    (cs : List Char) (h : pat.isPrefixOf (c :: cs) = true) :
    pySplitFuel pat (n + 1) (c :: cs) =
      [] :: pySplitFuel pat n (cs.drop (pat.length - 1)) := by
  simp [pySplitFuel, h]

theorem pySplitFuel_succ_neg (pat : List Char) (n : Nat) (c : Char)
    (cs : List Char) (h : ¬ pat.isPrefixOf (c :: cs) = true) :
    pySplitFuel pat (n + 1) (c :: cs) =
      match pySplitFuel pat n cs with
      | [] => [[c]]
      | x :: xs => (c :: x) :: xs := by
  simp [pySplitFuel, h]

theorem pyReplaceFuel_eq_join (pat rep : List Char) :
    ∀ (n : Nat) (s : List Char), s.length ≤ n →
      pyReplaceFuel pat rep n s = joinWithL rep (pySplitFuel pat n s) := by
  intro n
  induction n with
  | zero =>
    intro s hs
    have hnil : s = [] := List.length_eq_zero.mp (Nat.le_zero.mp hs)
    subst hnil
    rfl
  | succ m ih =>
    intro s hs
    cases s with
    | nil => rfl
    | cons c cs =>
      by_cases hp : pat.isPrefixOf (c :: cs) = true
      · have hlen : (cs.drop (pat.length - 1)).length ≤ m := by
          have h1 : (cs.drop (pat.length - 1)).length = cs.length - (pat.length - 1) :=
            List.length_drop _ _
          have h2 : cs.length + 1 ≤ m + 1 := by simpa using hs
          omega
        have hne := pySplitFuel_ne_nil pat m (cs.drop (pat.length - 1))
        rw [pyReplaceFuel_succ_pos pat rep m c cs hp, pySplitFuel_succ_pos pat m c cs hp]
        rw [ih _ hlen]
        obtain ⟨hd, tl, hL⟩ :
            ∃ hd tl, pySplitFuel pat m (cs.drop (pat.length - 1)) = hd :: tl := by
          cases hq : pySplitFuel pat m (cs.drop (pat.length - 1)) with
          | nil => exact absurd hq hne
          | cons a b => exact ⟨a, b, rfl⟩
        rw [hL]
        rfl
      · have hlen : cs.length ≤ m := by
          have h2 : cs.length + 1 ≤ m + 1 := by simpa using hs
          omega
        rw [pyReplaceFuel_succ_neg pat rep m c cs hp, pySplitFuel_succ_neg pat m c cs hp]
        rw [ih _ hlen]
        cases hq : pySplitFuel pat m cs with
        | nil => exact absurd hq (pySplitFuel_ne_nil pat m cs)
        | cons x xs =>
          cases xs with
          | nil => rfl
          | cons y t => simp [joinWithL, List.cons_append]

theorem pyJoin_map_mk (sep : String) (L : List (List Char)) :
    pyJoin sep (L.map (fun l => (⟨l⟩ : String))) = ⟨joinWithL sep.data L⟩ := by
  obtain ⟨sd⟩ := sep
  induction L with
  | nil => rfl
  | cons x t ih =>
    cases t with
    | nil => rfl
    | cons y u =>
      simp only [List.map, pyJoin, joinWithL] at *
      rw [ih]
      rfl

theorem mem_pyJoin_infix (sep : String) (l : List String) (x : String) :
    x ∈ l → x.data <:+: (pyJoin sep l).data := by
  induction l with
  | nil => intro hx; cases hx
  | cons a t ih =>
    intro hx
    cases t with
    | nil =>
      have hxa : x = a := by simpa using hx
      subst hxa
      exact List.infix_refl _
    | cons b u =>
      cases hx with
      | head =>
        refine ⟨[], (sep ++ pyJoin sep (b :: u)).data, ?_⟩
        simp [pyJoin, str_data_append]
      | tail _ hx' =>
        obtain ⟨pre, post, hpp⟩ := ih hx'
        refine ⟨a.data ++ sep.data ++ pre, post, ?_⟩
        have hj : (pyJoin sep (a :: b :: u)).data =
            a.data ++ (sep.data ++ (pyJoin sep (b :: u)).data) := by
          simp [pyJoin, str_data_append, List.append_assoc]
        rw [hj, ← hpp]
        simp [List.append_assoc]

theorem infix_append_left_str (a : String) {x h : String}
    (hx : x.data <:+: h.data) : x.data <:+: (a ++ h).data := by
  obtain ⟨pre, post, hpp⟩ := hx
  exact ⟨a.data ++ pre, post, by rw [str_data_append, ← hpp]; simp [List.append_assoc]⟩

theorem certIssue_some_of_bad (fs : FileSys) (p : String × String)
    (hb : fs.fsExists p.2 = false ∨ fs.fsReadable p.2 = false) :
    ∃ d, certIssue fs p = some d ∧ p.1.data <+: d.data := by
  by_cases h1 : fs.fsExists p.2 = false
  · refine ⟨p.1 ++ " at " ++ p.2, by simp [certIssue, h1], ?_⟩
    exact ⟨(" at " ++ p.2).data, by simp [str_data_append, List.append_assoc]⟩
  · have h2 : fs.fsReadable p.2 = false := hb.resolve_left h1
    have h1' : fs.fsExists p.2 = true := by
      cases hfe : fs.fsExists p.2
      · exact absurd hfe h1
      · rfl
    refine ⟨p.1 ++ " at " ++ p.2 ++ " (not readable)", by simp [certIssue, h1', h2], ?_⟩
    exact ⟨(" at " ++ p.2 ++ " (not readable)").data,
      by simp [str_data_append, List.append_assoc]⟩

/-! ### State-machine helper lemmas -/

theorem publish_state_id (cfg : MqttConfig) (env : Env) (payload : Json)
    (s : BridgeState) : (publish_message cfg env payload s).2.1 = s := by
  unfold publish_message
  split
  · rfl
  · split
    · rfl
    · split <;> rfl

theorem init_conn_cases (fs : FileSys) (certDir : String) (env : Env)
    (s : BridgeState) :
    (init_mqtt_client fs certDir env s).2.1.conn = ⟨"connecting", none⟩ ∨
    ∃ m, (init_mqtt_client fs certDir env s).2.1.conn = ⟨"error", some m⟩ := by
  unfold init_mqtt_client
  split
  · split
    · exact Or.inr ⟨_, rfl⟩
    · exact Or.inl rfl
  · exact Or.inr ⟨_, rfl⟩

theorem init_active_id (fs : FileSys) (certDir : String) (env : Env)
    (s : BridgeState) :
    (init_mqtt_client fs certDir env s).2.1.active_client_id = s.active_client_id := by
  unfold init_mqtt_client
  split
  · split <;> rfl
  · rfl

theorem cleanup_active_id (env : Env) (s : BridgeState) :
    (cleanup_mqtt_client env s).2.active_client_id = s.active_client_id := by
  unfold cleanup_mqtt_client
  split
  · rfl
  · split <;> rfl

theorem cleanup_conn_cases (env : Env) (s : BridgeState) :
    (cleanup_mqtt_client env s).2 = s ∨
    (cleanup_mqtt_client env s).2.conn = ⟨"disconnected", none⟩ ∨
    ∃ m, (cleanup_mqtt_client env s).2.conn = ⟨s.conn.status, some m⟩ := by
  unfold cleanup_mqtt_client
  split
  · exact Or.inl rfl
  · split
    · exact Or.inr (Or.inr ⟨_, rfl⟩)
    · exact Or.inr (Or.inl rfl)

theorem cleanup_nofail_cases (env : Env) (s : BridgeState)
    (h : env.cleanupRaises = none) :
    (cleanup_mqtt_client env s).2 = s ∨
    (cleanup_mqtt_client env s).2.conn = ⟨"disconnected", none⟩ := by
  unfold cleanup_mqtt_client
  split
  · exact Or.inl rfl
  · rw [h]
    exact Or.inr rfl

theorem on_connect_conn_cases (cfg : MqttConfig) (env : Env) (rc : Nat)
    (s : BridgeState) :
    (on_connect cfg env rc s).1.conn = ⟨"connected", none⟩ ∨
    ∃ m, (on_connect cfg env rc s).1.conn = ⟨"error", some m⟩ := by
  unfold on_connect
  split
  · rw [publish_state_id]
    exact Or.inl rfl
  · exact Or.inr ⟨_, rfl⟩

theorem on_disconnect_conn (rc : Nat) (s : BridgeState) :
    (on_disconnect rc s).conn = ⟨"disconnected", s.conn.error⟩ := rfl

/-! ### Reachability invariants -/

theorem reach_error_msg {cfg : MqttConfig} {ok : Env → Prop} {s : BridgeState}
    (h : Reach cfg ok s) : s.conn.status = "error" → s.conn.error ≠ none := by
  induction h with
  | init => intro hst; exact absurd hst (by decide)
  | connect fs certDir env hs ih =>
    rcases init_conn_cases fs certDir env _ with hc | ⟨m, hc⟩
    · rw [hc]; intro hst; exact absurd hst (by decide)
    · rw [hc]; intro _; simp
  | disconnect env okEnv hs ih =>
    rcases cleanup_conn_cases env _ with hc | hc | ⟨m, hc⟩
    · rw [hc]; exact ih
    · rw [hc]; intro hst; exact absurd hst (by decide)
    · rw [hc]; intro _; simp
  | publishMsg env payload hs ih =>
    rw [publish_state_id]; exact ih
  | setClient cid hs ih => exact ih
  | onConnect env rc hcl hs ih =>
    rcases on_connect_conn_cases cfg env rc _ with hc | ⟨m, hc⟩
    · rw [hc]; intro hst; exact absurd hst (by decide)
    · rw [hc]; intro _; simp
  | onDisconnect rc hcl hs ih =>
    rw [on_disconnect_conn]; intro hst; simp at hst

theorem reach_connected_none {cfg : MqttConfig} {ok : Env → Prop} {s : BridgeState}
    (h : Reach cfg ok s) (hok : ∀ e, ok e → e.cleanupRaises = none) :
    s.conn.status = "connected" → s.conn.error = none := by
  induction h with
  | init => intro hst; exact absurd hst (by decide)
  | connect fs certDir env hs ih =>
    rcases init_conn_cases fs certDir env _ with hc | ⟨m, hc⟩ <;>
      · rw [hc]; intro hst; simp at hst
  | disconnect env okEnv hs ih =>
    rcases cleanup_nofail_cases env _ (hok env okEnv) with hc | hc
    · rw [hc]; exact ih
    · rw [hc]; intro hst; exact absurd hst (by decide)
  | publishMsg env payload hs ih =>
    rw [publish_state_id]; exact ih
  | setClient cid hs ih => exact ih
  | onConnect env rc hcl hs ih =>
    rcases on_connect_conn_cases cfg env rc _ with hc | ⟨m, hc⟩
    · rw [hc]; intro _; rfl
    · rw [hc]; intro hst; simp at hst
  | onDisconnect rc hcl hs ih =>
    rw [on_disconnect_conn]; intro hst; simp at hst

/-! ### Publish relay helper lemmas -/

theorem publish_message_open (cfg : MqttConfig) (env : Env) (payload : Json)
    (s : BridgeState) (hcl : s.mqtt_client ≠ none) (hco : s.mqtt_connected = true)
    (hr : env.publishRaises = none) :
    publish_message cfg env payload s =
      if env.publishRc = 0 then
        ((true, none), s,
          [⟨get_publish_topic cfg.base_topic s.active_client_id, dumps payload, 1⟩])
      else
        ((false, some ("Failed to publish message: " ++ toString env.publishRc)), s,
          [⟨get_publish_topic cfg.base_topic s.active_client_id, dumps payload, 1⟩]) := by
  unfold publish_message
  rw [if_neg (by simp [hcl, hco]), hr]

theorem publish_acts (cfg : MqttConfig) (env : Env) (payload : Json)
    (s : BridgeState) (hcl : s.mqtt_client ≠ none) (hco : s.mqtt_connected = true)
    (hr : env.publishRaises = none) :
    (publish_message cfg env payload s).2.2 =
      [⟨get_publish_topic cfg.base_topic s.active_client_id, dumps payload, 1⟩] := by
  rw [publish_message_open cfg env payload s hcl hco hr]
  split <;> rfl

/-! ### Claim theorems -/

/-- C1 counterexample: after a certificate-failure `connect()` the status is
`error` with a non-null message and no live handle; `disconnect()` from this
reachable state returns success but leaves the status `error` and the error
message intact, contradicting the claim that every `disconnect()` ends in
`disconnected` with a null error. -/
theorem disconnect_error_state_cex :
    Reach cfg0 (fun _ => True) sCertFail ∧
    cleanup_mqtt_client env0 sCertFail = (true, sCertFail) ∧
    sCertFail.conn.status = "error" ∧
    sCertFail.conn.error ≠ none :=
  ⟨Reach.connect fsNoCA "certs" env0 Reach.init, by decide, by decide, by decide⟩

/-- C1 (amended): `disconnect()` with no live handle is a no-op success that
leaves the whole state (including an `error` status) unchanged; with a live
handle whose teardown does not raise, it returns success, drops the handle,
clears the connected flag, sets status `disconnected` with a null error, and
calling it again is a no-op success on the same state. -/
theorem cleanup_mqtt_client_spec (env env2 : Env) (s : BridgeState) :
    (s.mqtt_client = none → cleanup_mqtt_client env s = (true, s)) ∧
    (s.mqtt_client ≠ none → env.cleanupRaises = none →
      cleanup_mqtt_client env s =
        (true, { s with
                  mqtt_client := none, mqtt_connected := false,
                  conn := ⟨"disconnected", none⟩ }) ∧
      cleanup_mqtt_client env2 (cleanup_mqtt_client env s).2 =
        (true, (cleanup_mqtt_client env s).2)) := by
  constructor
  · intro hnone
    unfold cleanup_mqtt_client
    rw [if_pos hnone]
  · intro hsome hr
    have h1 : cleanup_mqtt_client env s =
        (true, { s with
                  mqtt_client := none, mqtt_connected := false,
                  conn := ⟨"disconnected", none⟩ }) := by
      unfold cleanup_mqtt_client
      rw [if_neg hsome, hr]
    refine ⟨h1, ?_⟩
    rw [h1]
    unfold cleanup_mqtt_client
    rw [if_pos rfl]

/-- C1 witness: concrete run of the amended theorem on the state right after
a successful `connect()`. -/
theorem cleanup_mqtt_client_spec_witness :
    (cleanup_mqtt_client env0 sConnecting).2.conn = ⟨"disconnected", none⟩ ∧
    cleanup_mqtt_client env0 (cleanup_mqtt_client env0 sConnecting).2 =
      (true, (cleanup_mqtt_client env0 sConnecting).2) := by
  have h := (cleanup_mqtt_client_spec env0 env0 sConnecting).2 (by decide) rfl
  exact ⟨by rw [h.1], h.2⟩

/-- C2 counterexample: with base template `/client_id/client_id` (two
occurrences of the token) and client id `x`, topic resolution returns
`/x/x`: both occurrences are replaced (none is left), refuting "replaces
exactly one occurrence". -/
theorem get_publish_topic_two_tokens_cex :
    get_publish_topic "/client_id/client_id" (some "x") = "/x/x" ∧
    countOcc "client_id" "/client_id/client_id" = 2 ∧
    countOcc "client_id" "/x/x" = 0 := by decide

/-- C2 (amended): with an unset (or empty, which Python treats as falsy)
client id, resolution returns the base template unchanged; with a set
non-empty client id `c`, it replaces every non-overlapping occurrence of
the substring `client_id`, left to right — equivalently, it returns the
pieces of the base split on `client_id` rejoined with `c`. -/
theorem get_publish_topic_spec :
    (∀ base : String, get_publish_topic base none = base) ∧
    (∀ base : String, get_publish_topic base (some "") = base) ∧
    (∀ (base cid : String), cid ≠ "" →
      get_publish_topic base (some cid) = pyJoin cid (pySplit "client_id" base)) := by
  refine ⟨fun base => rfl, fun base => rfl, ?_⟩
  intro base cid hcid
  show (if cid = "" then base else pyReplace base "client_id" cid) = _
  rw [if_neg hcid]
  unfold pyReplace pySplit
  rw [pyReplaceFuel_eq_join "client_id".data cid.data base.data.length base.data
    (le_refl _)]
  rw [pyJoin_map_mk]

/-- C2 witness: the amended theorem applied at the two-token base template
and client id `x`. -/
theorem get_publish_topic_spec_witness :
    "x" ≠ "" ∧
    get_publish_topic "/client_id/client_id" (some "x") =
      pyJoin "x" (pySplit "client_id" "/client_id/client_id") :=
  ⟨by decide, get_publish_topic_spec.2.2 "/client_id/client_id" "x" (by decide)⟩

/-- C3 counterexample: calling `connect()` while already connected yields a
reachable state with status `connecting` but a stale connected flag, and
`publish` from that state does not fail with "not connected" — it goes
through and reports success, refuting the claim for that state. -/
theorem publish_connecting_state_cex :
    Reach cfg0 (fun _ => True) sReconnecting ∧
    sReconnecting.conn.status = "connecting" ∧
    (publish_message cfg0 env0 payA sReconnecting).1 = (true, none) := by
  refine ⟨?_, by decide, by decide⟩
  exact Reach.connect fsGood "certs" env0
    (Reach.onConnect env0 0 (by decide)
      (Reach.connect fsGood "certs" env0 Reach.init))

/-- C3 (amended): `publish` fails with the "MQTT client not connected"
message — emitting nothing and changing nothing — whenever the session
handle is absent or the internal connected flag is false (the code's guard;
the `connecting` state reached by reconnecting while connected retains a
stale flag, so the guard does not fire there even though status is not
`connected`); and `publish` never mutates the bridge state in any case. -/
theorem publish_not_connected_spec (cfg : MqttConfig) (env : Env) (payload : Json)
    (s : BridgeState) :
    ((s.mqtt_client = none ∨ s.mqtt_connected = false) →
      publish_message cfg env payload s =
        ((false, some "MQTT client not connected"), s, [])) ∧
    (publish_message cfg env payload s).2.1 = s := by
  refine ⟨?_, publish_state_id cfg env payload s⟩
  intro hg
  unfold publish_message
  rw [if_pos hg]

/-- C3 witness: publishing from the initial (no-handle) state fails with
the not-connected message and changes nothing. -/
theorem publish_not_connected_spec_witness :
    publish_message cfg0 env0 payA initState =
      ((false, some "MQTT client not connected"), initState, []) :=
  (publish_not_connected_spec cfg0 env0 payA initState).1 (Or.inl rfl)

/-- C6 counterexample: from the reachable state where the on-connect
callback reported failure code 5 (status `error`, non-null message, live
handle), the on-disconnect callback sets status `disconnected` but leaves
the error message non-null, refuting "clears the error message to null". -/
theorem on_disconnect_error_cex :
    Reach cfg0 (fun _ => True) sErrCode ∧
    sErrCode.mqtt_client ≠ none ∧
    (on_disconnect 1 sErrCode).conn.status = "disconnected" ∧
    (on_disconnect 1 sErrCode).conn.error ≠ none :=
  ⟨Reach.onConnect env0 5 (by decide)
      (Reach.connect fsGood "certs" env0 Reach.init),
   by decide, by decide, by decide⟩

/-- C6 (amended): the on-disconnect callback transitions to status
`disconnected` and clears the connected flag, leaving the error message,
the active client id and the session handle unchanged (in particular it
does not clear the error message). -/
theorem on_disconnect_spec (rc : Nat) (s : BridgeState) :
    (on_disconnect rc s).conn.status = "disconnected" ∧
    (on_disconnect rc s).mqtt_connected = false ∧
    (on_disconnect rc s).conn.error = s.conn.error ∧
    (on_disconnect rc s).active_client_id = s.active_client_id ∧
    (on_disconnect rc s).mqtt_client = s.mqtt_client :=
  ⟨rfl, rfl, rfl, rfl, rfl⟩

/-- C9: the active client id starts unset, and any sequence of `connect()`
and `disconnect()` requests (in any order, any number of times, under any
filesystem and library behaviour) leaves it unchanged. -/
theorem active_client_id_frame_spec :
    initState.active_client_id = none ∧
    ∀ (ops : List ConnDiscOp) (s : BridgeState),
      (runConnDisc ops s).active_client_id = s.active_client_id := by
  refine ⟨rfl, ?_⟩
  intro ops
  induction ops with
  | nil => intro s; rfl
  | cons op t ih =>
    intro s
    cases op with
    | connectOp fs certDir env =>
      rw [show runConnDisc (ConnDiscOp.connectOp fs certDir env :: t) s =
            runConnDisc t (init_mqtt_client fs certDir env s).2.1 from rfl]
      rw [ih]
      exact init_active_id fs certDir env s
    | disconnectOp env =>
      rw [show runConnDisc (ConnDiscOp.disconnectOp env :: t) s =
            runConnDisc t (cleanup_mqtt_client env s).2 from rfl]
      rw [ih]
      exact cleanup_active_id env s

/-- C10: a `POST /publish` whose parsed body is the empty JSON object is
rejected exactly like a missing body — HTTP 400 with
`success:false, error:"Payload is required"` — with the state unchanged and
no publish call ever issued to the relay. -/
theorem publish_route_empty_object_spec (cfg : MqttConfig) (env : Env)
    (s : BridgeState) :
    publish cfg env (some (Json.obj JsonObj.nil)) s =
      (⟨400, false, some "Payload is required"⟩, s, []) ∧
    publish cfg env (some (Json.obj JsonObj.nil)) s = publish cfg env none s :=
  ⟨rfl, rfl⟩

/-- C4: when at least one of the three certificates is missing or
unreadable, `connect()` returns failure, transitions directly to status
`error`, constructs no session handle (the handle field is untouched),
attempts no network connection, and the error message names the identifier
of every missing or unreadable certificate. -/
theorem connect_missing_certs_spec (fs : FileSys) (certDir : String) (env : Env)
    (s : BridgeState)
    (h : ∃ p ∈ CERTIFICATES certDir,
      fs.fsExists p.2 = false ∨ fs.fsReadable p.2 = false) :
    (init_mqtt_client fs certDir env s).1 = false ∧
    (init_mqtt_client fs certDir env s).2.1.conn.status = "error" ∧
    (init_mqtt_client fs certDir env s).2.1.mqtt_client = s.mqtt_client ∧
    (init_mqtt_client fs certDir env s).2.2 = [] ∧
    ∃ msg, (init_mqtt_client fs certDir env s).2.1.conn.error = some msg ∧
      ∀ p ∈ CERTIFICATES certDir,
        (fs.fsExists p.2 = false ∨ fs.fsReadable p.2 = false) →
          strContains msg p.1 := by
  obtain ⟨p0, hp0, hb0⟩ := h
  obtain ⟨d0, hd0, hpre0⟩ := certIssue_some_of_bad fs p0 hb0
  have hmem0 : d0 ∈ check_certificates fs certDir :=
    List.mem_filterMap.mpr ⟨p0, hp0, hd0⟩
  have hne : check_certificates fs certDir ≠ [] := List.ne_nil_of_mem hmem0
  unfold init_mqtt_client
  rw [if_neg hne]
  refine ⟨rfl, rfl, rfl, rfl, _, rfl, ?_⟩
  intro p hp hbp
  obtain ⟨d, hd, hpre⟩ := certIssue_some_of_bad fs p hbp
  have hmem : d ∈ check_certificates fs certDir := List.mem_filterMap.mpr ⟨p, hp, hd⟩
  have hinf : d.data <:+: (pyJoin ", " (check_certificates fs certDir)).data :=
    mem_pyJoin_infix _ _ _ hmem
  have hfin : p.1.data <:+: (pyJoin ", " (check_certificates fs certDir)).data :=
    hpre.isInfix.trans hinf
  exact infix_append_left_str "Missing or unreadable certificates: " hfin

/-- C4 witness: concrete run with the CA certificate absent. -/
theorem connect_missing_certs_spec_witness :
    (init_mqtt_client fsNoCA "certs" env0 initState).1 = false ∧
    (init_mqtt_client fsNoCA "certs" env0 initState).2.1.conn.status = "error" ∧
    (init_mqtt_client fsNoCA "certs" env0 initState).2.1.mqtt_client = none ∧
    ∃ msg, (init_mqtt_client fsNoCA "certs" env0 initState).2.1.conn.error = some msg ∧
      strContains msg "ca_cert" := by
  have h := connect_missing_certs_spec fsNoCA "certs" env0 initState
    ⟨("ca_cert", "certs/ca-cert.pem"), by decide, by decide⟩
  obtain ⟨msg, hmsg, hall⟩ := h.2.2.2.2
  exact ⟨h.1, h.2.1, h.2.2.1.trans rfl, msg, hmsg,
    hall ("ca_cert", "certs/ca-cert.pem") (by decide) (by decide)⟩

/-- C5 counterexample: from the reachable connected state, a `disconnect()`
whose teardown raises leaves status `connected` while setting a non-null
error message, refuting the invariant "`connected` implies null error" as
claimed (in particular the claim that a failing `disconnect()` preserves
it). -/
theorem status_invariant_cex :
    Reach cfg0 (fun _ => True) sBadCleanup ∧
    sBadCleanup.conn.status = "connected" ∧
    sBadCleanup.conn.error ≠ none :=
  ⟨Reach.disconnect envCleanupBoom trivial
      (Reach.onConnect env0 0 (by decide)
        (Reach.connect fsGood "certs" env0 Reach.init)),
   by decide, by decide⟩

/-- C5 (amended): in every reachable state, status `error` implies a
non-null error message; and in every state reachable without a
`disconnect()` whose teardown raised, status `connected` implies a null
error message (a failing disconnect can leave status `connected` with a
non-null message). -/
theorem status_invariant_spec :
    (∀ (cfg : MqttConfig) (s : BridgeState), Reach cfg (fun _ => True) s →
      s.conn.status = "error" → s.conn.error ≠ none) ∧
    (∀ (cfg : MqttConfig) (s : BridgeState),
      Reach cfg (fun e => e.cleanupRaises = none) s →
      s.conn.status = "connected" → s.conn.error = none) :=
  ⟨fun _ _ h => reach_error_msg h,
   fun _ _ h => reach_connected_none h (fun _ he => he)⟩

/-- C5 witness: both halves of the amended invariant applied at the
reachable certificate-failure state. -/
theorem status_invariant_spec_witness :
    (sCertFail.conn.status = "error" → sCertFail.conn.error ≠ none) ∧
    (sCertFail.conn.status = "connected" → sCertFail.conn.error = none) :=
  ⟨status_invariant_spec.1 cfg0 sCertFail
      (Reach.connect fsNoCA "certs" env0 Reach.init),
   status_invariant_spec.2 cfg0 sCertFail
      (Reach.connect fsNoCA "certs" env0 Reach.init)⟩

/-- C7: the on-connect callback with the success code transitions to
status `connected` with a null error and raises the connected flag — and
this holds for every library environment, so a failing announcement publish
never reverts it; when the announcement publish does not raise, exactly one
publish of the JSON text `"Connected"` is emitted on the currently-resolved
topic at QoS 1.  With any non-zero code it transitions to status `error`
with a message embedding that code and emits nothing. -/
theorem on_connect_spec (cfg : MqttConfig) (env : Env) (s : BridgeState)
    (hcl : s.mqtt_client ≠ none) :
    ((on_connect cfg env 0 s).1.conn = ⟨"connected", none⟩ ∧
     (on_connect cfg env 0 s).1.mqtt_connected = true ∧
     (env.publishRaises = none →
       (on_connect cfg env 0 s).2 =
         [⟨get_publish_topic cfg.base_topic s.active_client_id, "\"Connected\"", 1⟩])) ∧
    (∀ rc, rc ≠ 0 →
      (on_connect cfg env rc s).1.conn =
        ⟨"error",
          some ("Failed to connect to MQTT broker with result code " ++ toString rc)⟩ ∧
      (on_connect cfg env rc s).2 = []) := by
  constructor
  · have h0 : on_connect cfg env 0 s =
        (publish_message cfg env (Json.str "Connected")
          { s with mqtt_connected := true, conn := ⟨"connected", none⟩ }).2 := by
      unfold on_connect
      rw [if_pos rfl]
    refine ⟨?_, ?_, ?_⟩
    · rw [h0, publish_state_id]
    · rw [h0, publish_state_id]
    · intro hr
      rw [h0]
      exact publish_acts cfg env (Json.str "Connected")
        { s with mqtt_connected := true, conn := ⟨"connected", none⟩ } hcl rfl hr
  · intro rc hrc
    unfold on_connect
    rw [if_neg hrc]
    exact ⟨rfl, rfl⟩

/-- C7 witness: concrete callback runs from the freshly-connecting state,
with the resolved topic and error message evaluated. -/
theorem on_connect_spec_witness :
    (on_connect cfg0 env0 0 sConnecting).1.conn = ⟨"connected", none⟩ ∧
    (on_connect cfg0 env0 0 sConnecting).2 = [⟨"/client_id/api", "\"Connected\"", 1⟩] ∧
    (on_connect cfg0 env0 3 sConnecting).1.conn =
      ⟨"error", some "Failed to connect to MQTT broker with result code 3"⟩ := by
  have h := on_connect_spec cfg0 env0 sConnecting (by decide)
  refine ⟨h.1.1, ?_, ?_⟩
  · rw [h.1.2.2 rfl]
    decide
  · rw [(h.2 3 (by decide)).1]
    decide

/-- C8: while a live handle exists and the connected flag is up, `publish`
serializes the payload with `json.dumps`, resolves the topic from the base
template and the current active client id, issues exactly one QoS-1
publish, and reports success exactly when the library's immediate return
code is the success code; concretely, with base topic `/client_id/api` and
active client `tenant42`, publishing the object with `"a"` mapped to `1`
publishes its JSON text to `/tenant42/api` at QoS 1 and succeeds. -/
theorem publish_while_connected_spec :
    (∀ (cfg : MqttConfig) (env : Env) (payload : Json) (s : BridgeState),
      s.mqtt_client ≠ none → s.mqtt_connected = true → env.publishRaises = none →
      (publish_message cfg env payload s).2.2 =
        [⟨get_publish_topic cfg.base_topic s.active_client_id, dumps payload, 1⟩] ∧
      (env.publishRc = 0 → (publish_message cfg env payload s).1 = (true, none)) ∧
      (env.publishRc ≠ 0 → (publish_message cfg env payload s).1.1 = false)) ∧
    publish_message cfg0 env0 payA sTenant =
      ((true, none), sTenant, [⟨"/tenant42/api", "\x7b\"a\": 1\x7d", 1⟩]) := by
  constructor
  · intro cfg env payload s hcl hco hr
    refine ⟨publish_acts cfg env payload s hcl hco hr, ?_, ?_⟩
    · intro hrc
      rw [publish_message_open cfg env payload s hcl hco hr, if_pos hrc]
    · intro hrc
      rw [publish_message_open cfg env payload s hcl hco hr, if_neg hrc]
  · decide

/-- C8 witness: the universal part applied at the concrete connected
tenant-42 state. -/
theorem publish_while_connected_spec_witness :
    (publish_message cfg0 env0 payA sTenant).2.2 =
      [⟨get_publish_topic cfg0.base_topic sTenant.active_client_id, dumps payA, 1⟩] ∧
    (publish_message cfg0 env0 payA sTenant).1 = (true, none) := by
  have h := publish_while_connected_spec.1 cfg0 env0 payA sTenant
    (by decide) (by decide) rfl
  exact ⟨h.1, h.2.1 rfl⟩
